import Mathlib

set_option maxHeartbeats 1000000

/-!
Shallow embedding of `server/InterfaceController.cpp` (netd interface
configuration).  The virtual filesystem, the file-write capability, the
address ioctl helpers and the external vendor helper are modelled as an
explicit environment `Fs`; every operation returns its result value
together with the trace of external effects it performed, so that
ordering and "no I/O" properties can be stated directly.
-/

/-- Directory entry as seen by readdir: a name and whether d_type is DT_DIR. -/
structure Dirent where
  name : String
  isDir : Bool
deriving DecidableEq

/-- Record of one call to writeValueToPath: the three path components, the
value written, and whether WriteStringToFile reported success. -/
structure WriteRec where
  dirname : String
  subdirname : String
  basename : String
  value : String
  ok : Bool
deriving DecidableEq

/-- Record of one raw WriteStringToFile call on a fully built path
(used by setParameter, which does not go through writeValueToPath). -/
structure FileWrite where
  path : String
  value : String
  ok : Bool
deriving DecidableEq

/-- External calls other than sysctl writes: the two address ioctl helpers
and the vendor helper program invocation. -/
inductive ExtCall where
  | ifcAdd (interface addrString : String) (prefixLength : Int)
  | ifcDel (interface addrString : String) (prefixLength : Int)
  | run (argv : List String)
deriving DecidableEq

/-- The errno values the source assigns explicitly, plus the codes used by
the parameter accessors. -/
inductive Errno where
  | eNOENT
  | eINVAL
  | eAFNOSUPPORT
deriving DecidableEq

/-- Numeric errno codes (Linux values), used where the source returns -errno. -/
def errnoCode : Errno → Int
  | .eNOENT => 2
  | .eINVAL => 22
  | .eAFNOSUPPORT => 97

/-- Environment: directory listings (none = opendir fails), write success per
full path, errno produced by a failed raw write, file reads (error carries
errno), the two address ioctl capabilities, presence of the vendor helper,
and the vendor helper exit status. -/
structure Fs where
  listing : String → Option (List Dirent)
  writeOk : String → Bool
  writeErrno : String → Int
  readFile : String → Except Int String
  ifc_add_address : String → String → Int → Int
  ifc_del_address : String → String → Int → Int
  wlutilExecutable : Bool
  runProgram : List String → Int

/-- Fixed sysctl tree roots from the source file. -/
def ipv6_proc_path : String := "/proc/sys/net/ipv6/conf"

def ipv4_neigh_conf_dir : String := "/proc/sys/net/ipv4/neigh"

def ipv6_neigh_conf_dir : String := "/proc/sys/net/ipv6/neigh"

def proc_net_path : String := "/proc/sys/net"

def sys_net_path : String := "/sys/class/net"

def wl_util_path : String := "/vendor/xbin/wlutil"

def kRouteInfoMinPrefixLen : Int := 48

/-- RFC 7421 prefix length. -/
def kRouteInfoMaxPrefixLen : Int := 64

/-- Modelled from the spec: RouteController.h is not among the sources; the
spec only requires that initializeAll pass a negative offset to the
accept_ra_rt_table policy, so the offset constant is modelled as an
arbitrary fixed positive value. -/
def ROUTE_TABLE_OFFSET_FROM_INDEX : Int := 1000

/-- Embedding of isNormalPathComponent: not ".", not "..", and strchr for a
slash finds nothing. -/
def isNormalPathComponent (component : String) : Bool :=
  component != "." && component != ".." && !(component.data.contains '/')

/-- Embedding of isAddressFamilyPathComponent. -/
def isAddressFamilyPathComponent (component : String) : Bool :=
  component == "ipv4" || component == "ipv6"

/-- Embedding of isInterfaceName. -/
def isInterfaceName (name : String) : Bool :=
  isNormalPathComponent name && name != "default" && name != "all"

/-- Modelled from the spec: isIfaceName is declared in a shared constants
unit outside the given sources; section 4.7 of the spec says the
single-interface operations "validate with isInterfaceName", so it is
modelled as that predicate. -/
def isIfaceName (name : String) : Bool :=
  isInterfaceName name

/-- Path built by writeValueToPath via StringPrintf dir/subdir/base. -/
def pathJoin3 (dirname subdirname basename : String) : String :=
  dirname ++ "/" ++ subdirname ++ "/" ++ basename

/-- Embedding of writeValueToPath: returns 0 on write success and -1 on
failure, together with the record of the attempted write. -/
def writeValueToPath (fs : Fs) (dirname subdirname basename value : String) :
    Int × WriteRec :=
  let ok := fs.writeOk (pathJoin3 dirname subdirname basename)
  (if ok then 0 else -1, ⟨dirname, subdirname, basename, value, ok⟩)

/-- The readdir loop body of forEachInterface: entries that are not
directories or whose name fails isInterfaceName are skipped, all others
get the action applied, in listing order. -/
def applyEntries (fn : String → String → List α) (dirname : String) :
    List Dirent → List α
  | [] => []
  | e :: rest =>
      (if e.isDir && isInterfaceName e.name then fn dirname e.name else []) ++
        applyEntries fn dirname rest

/-- Embedding of forEachInterface: the action runs on "default" first, then,
if opendir succeeds, on every directory entry passing the filter; an
unreadable directory only logs and returns. The traces of the individual
invocations are concatenated in invocation order. -/
def forEachInterface (fs : Fs) (dirname : String)
    (fn : String → String → List α) : List α :=
  fn dirname "default" ++
    match fs.listing dirname with
    | none => []
    | some ents => applyEntries fn dirname ents

/-- Names visited by one forEachInterface pass, in order. -/
def interfacesVisited (fs : Fs) (dirname : String) : List String :=
  forEachInterface fs dirname (fun _ iface => [iface])

/-- Embedding of setOnAllInterfaces. -/
def setOnAllInterfaces (fs : Fs) (dirname basename value : String) :
    List WriteRec :=
  forEachInterface fs dirname
    (fun path iface => [(writeValueToPath fs path iface basename value).2])

/-- Per-interface body of setAcceptIPv6Rio: write min_plen; only when that
write returned 0 is max_plen written as well. -/
def rioWritesForIface (fs : Fs) (mn mx : Int) (dn iface : String) :
    List WriteRec :=
  let r := writeValueToPath fs dn iface "accept_ra_rt_info_min_plen" (toString mn)
  if r.1 != 0 then [r.2]
  else [r.2, (writeValueToPath fs dn iface "accept_ra_rt_info_max_plen" (toString mx)).2]

/-- Embedding of setAcceptIPv6Rio. -/
def setAcceptIPv6Rio (fs : Fs) (mn mx : Int) : List WriteRec :=
  forEachInterface fs ipv6_proc_path (rioWritesForIface fs mn mx)

/-- Embedding of setIPv6UseOutgoingInterfaceAddrsOnly. -/
def setIPv6UseOutgoingInterfaceAddrsOnly (fs : Fs) (value : String) :
    List WriteRec :=
  setOnAllInterfaces fs ipv6_proc_path "use_oif_addrs_only" value

/-- Embedding of getParameterPathname: family first (EAFNOSUPPORT), then the
three per-component checks (EINVAL), else the five-component path. -/
def getParameterPathname (family which interface parameter : String) :
    Except Errno String :=
  if !(isAddressFamilyPathComponent family) then
    .error .eAFNOSUPPORT
  else if !(isNormalPathComponent which) || !(isInterfaceName interface) ||
      !(isNormalPathComponent parameter) then
    .error .eINVAL
  else
    .ok (proc_net_path ++ "/" ++ family ++ "/" ++ which ++ "/" ++ interface
          ++ "/" ++ parameter)

/-- Result of one of the single-target setters: return value, errno set by
the validation path (none when validation passed), and writes performed. -/
structure SetterResult where
  ret : Int
  err : Option Errno
  writes : List WriteRec
deriving DecidableEq

/-- Embedding of InterfaceController::setEnableIPv6. -/
def setEnableIPv6 (fs : Fs) (interface : String) (onv : Int) : SetterResult :=
  if !(isIfaceName interface) then ⟨-1, some .eNOENT, []⟩
  else
    let disable_ipv6 := if onv != 0 then "0" else "1"
    let r := writeValueToPath fs ipv6_proc_path interface "disable_ipv6" disable_ipv6
    ⟨r.1, none, [r.2]⟩

/-- Embedding of InterfaceController::setAcceptIPv6Ra. -/
def setAcceptIPv6Ra (fs : Fs) (interface : String) (onv : Int) : SetterResult :=
  if !(isIfaceName interface) then ⟨-1, some .eNOENT, []⟩
  else
    let accept_ra := if onv != 0 then "2" else "0"
    let r := writeValueToPath fs ipv6_proc_path interface "accept_ra" accept_ra
    ⟨r.1, none, [r.2]⟩

/-- Embedding of InterfaceController::setAcceptIPv6Dad. -/
def setAcceptIPv6Dad (fs : Fs) (interface : String) (onv : Int) : SetterResult :=
  if !(isIfaceName interface) then ⟨-1, some .eNOENT, []⟩
  else
    let accept_dad := if onv != 0 then "1" else "0"
    let r := writeValueToPath fs ipv6_proc_path interface "accept_dad" accept_dad
    ⟨r.1, none, [r.2]⟩

/-- Embedding of InterfaceController::setIPv6DadTransmits. -/
def setIPv6DadTransmits (fs : Fs) (interface value : String) : SetterResult :=
  if !(isIfaceName interface) then ⟨-1, some .eNOENT, []⟩
  else
    let r := writeValueToPath fs ipv6_proc_path interface "dad_transmits" value
    ⟨r.1, none, [r.2]⟩

/-- Embedding of InterfaceController::setIPv6PrivacyExtensions. -/
def setIPv6PrivacyExtensions (fs : Fs) (interface : String) (onv : Int) :
    SetterResult :=
  if !(isIfaceName interface) then ⟨-1, some .eNOENT, []⟩
  else
    let r := writeValueToPath fs ipv6_proc_path interface "use_tempaddr"
      (if onv != 0 then "2" else "0")
    ⟨r.1, none, [r.2]⟩

/-- Embedding of InterfaceController::setMtu. -/
def setMtu (fs : Fs) (interface mtu : String) : SetterResult :=
  if !(isIfaceName interface) then ⟨-1, some .eNOENT, []⟩
  else
    let r := writeValueToPath fs sys_net_path interface "mtu" mtu
    ⟨r.1, none, [r.2]⟩

/-- Embedding of InterfaceController::setIPv6NdOffload: if the vendor helper
is executable, fork/exec it with the interface name in argv and return its
status; otherwise succeed with no external call. -/
def setIPv6NdOffload (fs : Fs) (interface : String) (onv : Int) :
    Int × List ExtCall :=
  if fs.wlutilExecutable then
    let argv := [wl_util_path, "-a", interface, "ndoe", if onv != 0 then "1" else "0"]
    (fs.runProgram argv, [ExtCall.run argv])
  else
    (0, [])

/-- Embedding of InterfaceController::addAddress: a direct delegation to
ifc_add_address, with no validation of any argument. -/
def addAddress (fs : Fs) (interface addrString : String) (prefixLength : Int) :
    Int × List ExtCall :=
  (fs.ifc_add_address interface addrString prefixLength,
   [ExtCall.ifcAdd interface addrString prefixLength])

/-- Embedding of InterfaceController::delAddress: a direct delegation to
ifc_del_address, with no validation of any argument. -/
def delAddress (fs : Fs) (interface addrString : String) (prefixLength : Int) :
    Int × List ExtCall :=
  (fs.ifc_del_address interface addrString prefixLength,
   [ExtCall.ifcDel interface addrString prefixLength])

/-- Embedding of InterfaceController::getParameter: result code, the value
read (if any), and the list of paths actually read. -/
def getParameter (fs : Fs) (family which interface parameter : String) :
    Int × Option String × List String :=
  match getParameterPathname family which interface parameter with
  | .error e => (-(errnoCode e), none, [])
  | .ok path =>
      match fs.readFile path with
      | .ok content => (0, some content, [path])
      | .error e => (-e, none, [path])

/-- Embedding of InterfaceController::setParameter: result code and the raw
writes performed. -/
def setParameter (fs : Fs) (family which interface parameter value : String) :
    Int × List FileWrite :=
  match getParameterPathname family which interface parameter with
  | .error e => (-(errnoCode e), [])
  | .ok path =>
      if fs.writeOk path then (0, [⟨path, value, true⟩])
      else (-(fs.writeErrno path), [⟨path, value, false⟩])

/-- Embedding of InterfaceController::setAcceptRA. -/
def setAcceptRA (fs : Fs) (value : String) : List WriteRec :=
  setOnAllInterfaces fs ipv6_proc_path "accept_ra" value

/-- Embedding of InterfaceController::setAcceptRARouteTable. -/
def setAcceptRARouteTable (fs : Fs) (tableOrOffset : Int) : List WriteRec :=
  setOnAllInterfaces fs ipv6_proc_path "accept_ra_rt_table" (toString tableOrOffset)

/-- Embedding of InterfaceController::setBaseReachableTimeMs: the value goes
to both the ipv4 and the ipv6 neighbor trees. -/
def setBaseReachableTimeMs (fs : Fs) (millis : Nat) : List WriteRec :=
  setOnAllInterfaces fs ipv4_neigh_conf_dir "base_reachable_time_ms" (toString millis) ++
    setOnAllInterfaces fs ipv6_neigh_conf_dir "base_reachable_time_ms" (toString millis)

/-- Embedding of InterfaceController::setIPv6OptimisticMode. -/
def setIPv6OptimisticMode (fs : Fs) (value : String) : List WriteRec :=
  setOnAllInterfaces fs ipv6_proc_path "optimistic_dad" value ++
    setOnAllInterfaces fs ipv6_proc_path "use_optimistic" value

/-- Embedding of InterfaceController::initializeAll, in source order. -/
def initializeAll (fs : Fs) : List WriteRec :=
  setAcceptRA fs "2" ++
    setAcceptIPv6Rio fs kRouteInfoMinPrefixLen kRouteInfoMaxPrefixLen ++
    setAcceptRARouteTable fs (-ROUTE_TABLE_OFFSET_FROM_INDEX) ++
    setIPv6OptimisticMode fs "1" ++
    setBaseReachableTimeMs fs (15 * 1000) ++
    setIPv6UseOutgoingInterfaceAddrsOnly fs "1"

/-- Concatenation of the lists an action produces along a list of inputs;
used to restate a forEachInterface trace interface by interface. -/
def joinMap (f : α → List β) : List α → List β
  | [] => []
  | x :: xs => f x ++ joinMap f xs

/-- Left-to-right checker for the ordered dependent-write discipline: scans a
trace keeping the interfaces whose min_plen write has already succeeded, and
demands that every max_plen write name one of them. -/
def maxGuardedChk (okmins : List String) : List WriteRec → Bool
  | [] => true
  | w :: rest =>
      (if w.basename == "accept_ra_rt_info_max_plen" then
        okmins.contains w.subdirname
      else true) &&
        maxGuardedChk
          (if w.basename == "accept_ra_rt_info_min_plen" && w.ok then
            w.subdirname :: okmins
          else okmins) rest

/-- Invocations of the action performed by one forEachInterface pass. -/
def invocations (fs : Fs) (dirname : String) : List (String × String) :=
  forEachInterface fs dirname (fun dn i => [(dn, i)])

/-- Concrete environment where every directory is empty and every write
succeeds. -/
def fsAllOk : Fs :=
  ⟨fun _ => some [], fun _ => true, fun _ => 13, fun _ => .ok "", fun _ _ _ => 0,
   fun _ _ _ => 0, true, fun _ => 7⟩

/-- Concrete environment with two interfaces in which the min_plen node of
eth0 is unwritable and everything else is writable. -/
def fsRio : Fs :=
  ⟨fun _ => some [⟨"eth0", true⟩, ⟨"wlan0", true⟩],
   fun p => p != "/proc/sys/net/ipv6/conf/eth0/accept_ra_rt_info_min_plen",
   fun _ => 13, fun _ => .error 2, fun _ _ _ => 0, fun _ _ _ => 0, false, fun _ => 0⟩

theorem joinMap_append (f : α → List β) (l1 l2 : List α) :
    joinMap f (l1 ++ l2) = joinMap f l1 ++ joinMap f l2 := by
  induction l1 with
  | nil => rfl
  | cons x xs ih => simp [joinMap, ih]

theorem joinMap_congr (f g : α → List β) (l : List α) (h : ∀ x, f x = g x) :
    joinMap f l = joinMap g l := by
  induction l with
  | nil => rfl
  | cons x xs ih => simp [joinMap, h x, ih]

theorem applyEntries_joinMap (fn : String → String → List α) (d : String)
    (ents : List Dirent) :
    applyEntries fn d ents =
      joinMap (fn d) (applyEntries (fun _ i => [i]) d ents) := by
  induction ents with
  | nil => rfl
  | cons e rest ih =>
      cases h : e.isDir && isInterfaceName e.name <;>
        simp [applyEntries, h, ih, joinMap, joinMap_append]

theorem forEachInterface_joinMap (fs : Fs) (d : String)
    (fn : String → String → List α) :
    forEachInterface fs d fn = joinMap (fn d) (interfacesVisited fs d) := by
  unfold interfacesVisited forEachInterface
  cases h : fs.listing d with
  | none => simp [joinMap]
  | some ents =>
      show fn d "default" ++ applyEntries fn d ents =
        joinMap (fn d) (["default"] ++ applyEntries (fun _ i => [i]) d ents)
      rw [applyEntries_joinMap fn d ents]
      simp [joinMap]

theorem rioWritesForIface_eq (fs : Fs) (mn mx : Int) (dn iface : String) :
    rioWritesForIface fs mn mx dn iface =
      if fs.writeOk (pathJoin3 dn iface "accept_ra_rt_info_min_plen") then
        [⟨dn, iface, "accept_ra_rt_info_min_plen", toString mn, true⟩,
         ⟨dn, iface, "accept_ra_rt_info_max_plen", toString mx,
           fs.writeOk (pathJoin3 dn iface "accept_ra_rt_info_max_plen")⟩]
      else
        [⟨dn, iface, "accept_ra_rt_info_min_plen", toString mn, false⟩] := by
  unfold rioWritesForIface writeValueToPath
  cases h : fs.writeOk (pathJoin3 dn iface "accept_ra_rt_info_min_plen") <;>
    simp [h]

theorem maxGuardedChk_rio (fs : Fs) (mn mx : Int) (dn : String) :
    ∀ (l : List String) (S : List String),
      maxGuardedChk S (joinMap (rioWritesForIface fs mn mx dn) l) = true := by
  intro l
  induction l with
  | nil => intro S; rfl
  | cons x xs ih =>
      intro S
      rw [joinMap, rioWritesForIface_eq]
      cases h : fs.writeOk (pathJoin3 dn x "accept_ra_rt_info_min_plen") <;>
        simp [maxGuardedChk, ih, List.contains_cons]

/-- C1: in every setAcceptIPv6Rio pass, each visited interface first gets a
min_plen write whose outcome alone decides whether its max_plen write is
attempted (other interfaces have no influence), and the resulting trace
never holds a max_plen write for an interface without a preceding
successful min_plen write for that same interface. -/
theorem setAcceptIPv6Rio_ordered (fs : Fs) (mn mx : Int) :
    setAcceptIPv6Rio fs mn mx =
      joinMap (fun iface =>
        if fs.writeOk (pathJoin3 ipv6_proc_path iface "accept_ra_rt_info_min_plen") then
          [⟨ipv6_proc_path, iface, "accept_ra_rt_info_min_plen", toString mn, true⟩,
           ⟨ipv6_proc_path, iface, "accept_ra_rt_info_max_plen", toString mx,
             fs.writeOk (pathJoin3 ipv6_proc_path iface "accept_ra_rt_info_max_plen")⟩]
        else
          [⟨ipv6_proc_path, iface, "accept_ra_rt_info_min_plen", toString mn, false⟩])
        (interfacesVisited fs ipv6_proc_path) ∧
    maxGuardedChk [] (setAcceptIPv6Rio fs mn mx) = true := by
  have h1 : setAcceptIPv6Rio fs mn mx =
      joinMap (rioWritesForIface fs mn mx ipv6_proc_path)
        (interfacesVisited fs ipv6_proc_path) :=
    forEachInterface_joinMap fs ipv6_proc_path (rioWritesForIface fs mn mx)
  constructor
  · rw [h1]
    exact joinMap_congr _ _ _ (fun iface => rioWritesForIface_eq fs mn mx ipv6_proc_path iface)
  · rw [h1]
    exact maxGuardedChk_rio fs mn mx ipv6_proc_path (interfacesVisited fs ipv6_proc_path) []

/-- C1 witness: concrete pass over two interfaces in which the min_plen
write for eth0 fails; the ordering checker accepts the trace. -/
theorem setAcceptIPv6Rio_ordered_witness :
    maxGuardedChk [] (setAcceptIPv6Rio fsRio 48 64) = true :=
  (setAcceptIPv6Rio_ordered fsRio 48 64).2

/-- C3 counterexample: the string "a.b" contains a dot, yet
isNormalPathComponent returns true on it, so the clause "for every string
containing a dot the predicate returns false" fails. -/
theorem isNormalPathComponent_dot_cex :
    "a.b".data.contains '.' = true ∧ isNormalPathComponent "a.b" = true := by
  decide

/-- C3 amended: isNormalPathComponent(name) is true iff name is neither "."
nor ".." and contains no path separator; in particular it is false for
every string containing a slash and for the strings "." and "..". -/
theorem isNormalPathComponent_spec :
    isNormalPathComponent "." = false ∧
    isNormalPathComponent ".." = false ∧
    ∀ s : String,
      ((isNormalPathComponent s = true) ↔ (s ≠ "." ∧ s ≠ ".." ∧ '/' ∉ s.data)) ∧
      ('/' ∈ s.data → isNormalPathComponent s = false) := by
  refine ⟨by decide, by decide, fun s => ⟨?_, ?_⟩⟩
  · simp [isNormalPathComponent, and_assoc]
  · intro h
    simp [isNormalPathComponent, h]

/-- C3 witness: the amended theorem applied to a string with a slash. -/
theorem isNormalPathComponent_spec_witness :
    isNormalPathComponent "a/b" = false :=
  (isNormalPathComponent_spec.2.2 "a/b").2 (by decide)

/-- C8: "default" and "all" fail isInterfaceName although both pass
isNormalPathComponent, and on every other string the two predicates agree. -/
theorem isInterfaceName_spec :
    isInterfaceName "default" = false ∧ isInterfaceName "all" = false ∧
    isNormalPathComponent "default" = true ∧ isNormalPathComponent "all" = true ∧
    ∀ s : String, s ≠ "default" → s ≠ "all" →
      isInterfaceName s = isNormalPathComponent s := by
  refine ⟨by decide, by decide, by decide, by decide, fun s h1 h2 => ?_⟩
  have e1 : (s != "default") = true := by simp [h1]
  have e2 : (s != "all") = true := by simp [h2]
  rw [isInterfaceName, e1, e2, Bool.and_true, Bool.and_true]

/-- C8 witness: agreement of the predicates on the ordinary name "eth0". -/
theorem isInterfaceName_spec_witness :
    isInterfaceName "eth0" = isNormalPathComponent "eth0" :=
  isInterfaceName_spec.2.2.2.2 "eth0" (by decide) (by decide)

theorem applyEntries_pairs (d : String) (ents : List Dirent) :
    applyEntries (fun dn i => [(dn, i)]) d ents =
      (ents.filter (fun e => e.isDir && isInterfaceName e.name)).map
        (fun e => (d, e.name)) := by
  induction ents with
  | nil => rfl
  | cons e rest ih =>
      cases h : e.isDir && isInterfaceName e.name <;>
        simp [applyEntries, List.filter_cons, h, ih]

/-- C4: a forEachInterface pass always invokes the action on "default"
first; when the directory cannot be listed that is the only invocation, and
otherwise the remaining invocations are exactly one per directory entry
that is a directory and passes isInterfaceName, in listing order. -/
theorem forEachInterface_spec (fs : Fs) (d : String) :
    (invocations fs d).head? = some (d, "default") ∧
    (fs.listing d = none → invocations fs d = [(d, "default")]) ∧
    ∀ ents, fs.listing d = some ents →
      invocations fs d =
        (d, "default") ::
          (ents.filter (fun e => e.isDir && isInterfaceName e.name)).map
            (fun e => (d, e.name)) := by
  refine ⟨?_, ?_, ?_⟩
  · unfold invocations forEachInterface
    cases h : fs.listing d <;> simp
  · intro h
    unfold invocations forEachInterface
    simp [h]
  · intro ents h
    unfold invocations forEachInterface
    simp [h, applyEntries_pairs]

/-- C4 witness: directory with eth0, wlan0, a plain file and the reserved
entry "all"; the invocations are exactly default, eth0, wlan0 in order. -/
theorem forEachInterface_spec_witness :
    invocations
      ⟨fun _ => some [⟨"eth0", true⟩, ⟨"somefile", false⟩, ⟨"all", true⟩, ⟨"wlan0", true⟩],
       fun _ => true, fun _ => 13, fun _ => .ok "", fun _ _ _ => 0, fun _ _ _ => 0,
       false, fun _ => 0⟩ "/proc/sys/net/ipv6/conf" =
      [("/proc/sys/net/ipv6/conf", "default"), ("/proc/sys/net/ipv6/conf", "eth0"),
       ("/proc/sys/net/ipv6/conf", "wlan0")] := by
  rw [(forEachInterface_spec _ "/proc/sys/net/ipv6/conf").2.2
    [⟨"eth0", true⟩, ⟨"somefile", false⟩, ⟨"all", true⟩, ⟨"wlan0", true⟩] rfl]
  decide

/-- C6: every single-target setter rejects an invalid interface name with
return -1, errno ENOENT and no write, and on a valid name performs exactly
one write, returning 0 when it succeeds and -1 when it fails. -/
theorem singleTargetSetters_spec (fs : Fs) (iface : String) (onv : Int)
    (value mtu : String) :
    (isIfaceName iface = false →
      setEnableIPv6 fs iface onv = ⟨-1, some .eNOENT, []⟩ ∧
      setAcceptIPv6Ra fs iface onv = ⟨-1, some .eNOENT, []⟩ ∧
      setAcceptIPv6Dad fs iface onv = ⟨-1, some .eNOENT, []⟩ ∧
      setIPv6DadTransmits fs iface value = ⟨-1, some .eNOENT, []⟩ ∧
      setIPv6PrivacyExtensions fs iface onv = ⟨-1, some .eNOENT, []⟩ ∧
      setMtu fs iface mtu = ⟨-1, some .eNOENT, []⟩) ∧
    (isIfaceName iface = true →
      (∃ w, setEnableIPv6 fs iface onv = ⟨if w.ok then 0 else -1, none, [w]⟩) ∧
      (∃ w, setAcceptIPv6Ra fs iface onv = ⟨if w.ok then 0 else -1, none, [w]⟩) ∧
      (∃ w, setAcceptIPv6Dad fs iface onv = ⟨if w.ok then 0 else -1, none, [w]⟩) ∧
      (∃ w, setIPv6DadTransmits fs iface value = ⟨if w.ok then 0 else -1, none, [w]⟩) ∧
      (∃ w, setIPv6PrivacyExtensions fs iface onv = ⟨if w.ok then 0 else -1, none, [w]⟩) ∧
      (∃ w, setMtu fs iface mtu = ⟨if w.ok then 0 else -1, none, [w]⟩)) := by
  constructor
  · intro h
    simp [setEnableIPv6, setAcceptIPv6Ra, setAcceptIPv6Dad, setIPv6DadTransmits,
      setIPv6PrivacyExtensions, setMtu, h]
  · intro h
    refine ⟨⟨⟨ipv6_proc_path, iface, "disable_ipv6", if onv != 0 then "0" else "1",
        fs.writeOk (pathJoin3 ipv6_proc_path iface "disable_ipv6")⟩, ?_⟩,
      ⟨⟨ipv6_proc_path, iface, "accept_ra", if onv != 0 then "2" else "0",
        fs.writeOk (pathJoin3 ipv6_proc_path iface "accept_ra")⟩, ?_⟩,
      ⟨⟨ipv6_proc_path, iface, "accept_dad", if onv != 0 then "1" else "0",
        fs.writeOk (pathJoin3 ipv6_proc_path iface "accept_dad")⟩, ?_⟩,
      ⟨⟨ipv6_proc_path, iface, "dad_transmits", value,
        fs.writeOk (pathJoin3 ipv6_proc_path iface "dad_transmits")⟩, ?_⟩,
      ⟨⟨ipv6_proc_path, iface, "use_tempaddr", if onv != 0 then "2" else "0",
        fs.writeOk (pathJoin3 ipv6_proc_path iface "use_tempaddr")⟩, ?_⟩,
      ⟨⟨sys_net_path, iface, "mtu", mtu,
        fs.writeOk (pathJoin3 sys_net_path iface "mtu")⟩, ?_⟩⟩ <;>
      simp [setEnableIPv6, setAcceptIPv6Ra, setAcceptIPv6Dad, setIPv6DadTransmits,
        setIPv6PrivacyExtensions, setMtu, h, writeValueToPath]

/-- C6 witness: the reserved name "all" is rejected with ENOENT and no
write, while "eth0" leads to exactly one write. -/
theorem singleTargetSetters_spec_witness :
    setEnableIPv6 fsAllOk "all" 1 = ⟨-1, some .eNOENT, []⟩ ∧
    (∃ w, setEnableIPv6 fsAllOk "eth0" 1 = ⟨if w.ok then 0 else -1, none, [w]⟩) :=
  ⟨((singleTargetSetters_spec fsAllOk "all" 1 "3" "1500").1 (by decide)).1,
   ((singleTargetSetters_spec fsAllOk "eth0" 1 "3" "1500").2 (by decide)).1⟩

/-- C9: for a valid interface name setAcceptIPv6Ra writes "2" when enabling
and "0" when disabling to accept_ra, setIPv6PrivacyExtensions writes "2" or
"0" to use_tempaddr, and neither operation ever writes "1". -/
theorem fixedValueSetters_never_one (fs : Fs) (iface : String) (onv : Int) :
    (isIfaceName iface = true →
      (setAcceptIPv6Ra fs iface onv).writes =
        [⟨ipv6_proc_path, iface, "accept_ra", if onv != 0 then "2" else "0",
          fs.writeOk (pathJoin3 ipv6_proc_path iface "accept_ra")⟩] ∧
      (setIPv6PrivacyExtensions fs iface onv).writes =
        [⟨ipv6_proc_path, iface, "use_tempaddr", if onv != 0 then "2" else "0",
          fs.writeOk (pathJoin3 ipv6_proc_path iface "use_tempaddr")⟩]) ∧
    (∀ w ∈ (setAcceptIPv6Ra fs iface onv).writes, w.value = "2" ∨ w.value = "0") ∧
    (∀ w ∈ (setIPv6PrivacyExtensions fs iface onv).writes,
      w.value = "2" ∨ w.value = "0") := by
  refine ⟨?_, ?_, ?_⟩
  · intro h
    simp [setAcceptIPv6Ra, setIPv6PrivacyExtensions, h, writeValueToPath]
  · intro w hw
    cases hv : isIfaceName iface <;>
      simp [setAcceptIPv6Ra, hv, writeValueToPath] at hw
    simp [hw]
    exact Or.symm (Decidable.em (onv = 0))
  · intro w hw
    cases hv : isIfaceName iface <;>
      simp [setIPv6PrivacyExtensions, hv, writeValueToPath] at hw
    simp [hw]
    exact Or.symm (Decidable.em (onv = 0))

/-- C9 witness: enabling on eth0 writes "2" to accept_ra and "2" to
use_tempaddr. -/
theorem fixedValueSetters_never_one_witness :
    (setAcceptIPv6Ra fsAllOk "eth0" 1).writes =
      [⟨ipv6_proc_path, "eth0", "accept_ra", if (1 : Int) != 0 then "2" else "0",
        fsAllOk.writeOk (pathJoin3 ipv6_proc_path "eth0" "accept_ra")⟩] :=
  (((fixedValueSetters_never_one fsAllOk "eth0" 1).1) (by decide)).1

/-- C10: for a valid interface name setEnableIPv6 writes the inverted value
to disable_ipv6: "0" when enabling (nonzero), "1" when disabling (zero),
and nothing else. -/
theorem setEnableIPv6_inverts (fs : Fs) (iface : String) (onv : Int) :
    (isIfaceName iface = true →
      (setEnableIPv6 fs iface onv).writes =
        [⟨ipv6_proc_path, iface, "disable_ipv6", if onv != 0 then "0" else "1",
          fs.writeOk (pathJoin3 ipv6_proc_path iface "disable_ipv6")⟩]) ∧
    (onv ≠ 0 → ∀ w ∈ (setEnableIPv6 fs iface onv).writes, w.value = "0") ∧
    (onv = 0 → ∀ w ∈ (setEnableIPv6 fs iface onv).writes, w.value = "1") := by
  refine ⟨?_, ?_, ?_⟩
  · intro h
    simp [setEnableIPv6, h, writeValueToPath]
  · intro h w hw
    cases hv : isIfaceName iface <;>
      simp [setEnableIPv6, hv, writeValueToPath] at hw
    simp [hw, h]
  · intro h w hw
    cases hv : isIfaceName iface <;>
      simp [setEnableIPv6, hv, writeValueToPath] at hw
    simp [hw, h]

/-- C10 witness: enabling IPv6 on eth0 writes "0" to disable_ipv6. -/
theorem setEnableIPv6_inverts_witness :
    ∀ w ∈ (setEnableIPv6 fsAllOk "eth0" 1).writes, w.value = "0" :=
  (setEnableIPv6_inverts fsAllOk "eth0" 1).2.1 (by decide)

/-- C2 counterexample: addAddress invokes the address capability with the
name "../x" although that name fails isInterfaceName, so not every exposed
operation validates its interface-name parameter before the external
effect. -/
theorem addAddress_unvalidated_cex :
    (addAddress fsAllOk "../x" "192.0.2.1" 24).2 =
      [ExtCall.ifcAdd "../x" "192.0.2.1" 24] ∧
    isInterfaceName "../x" = false := by
  decide

/-- C2 amended: the six sysctl setters perform no write when the interface
name fails validation, but addAddress and delAddress always delegate to the
address capability with the unvalidated name, and setIPv6NdOffload passes
the unvalidated name in the vendor helper argv whenever the helper is
executable (and performs nothing otherwise). -/
theorem capability_ops_validation (fs : Fs) (iface addr : String)
    (plen onv : Int) (value mtu : String) :
    addAddress fs iface addr plen =
      (fs.ifc_add_address iface addr plen, [ExtCall.ifcAdd iface addr plen]) ∧
    delAddress fs iface addr plen =
      (fs.ifc_del_address iface addr plen, [ExtCall.ifcDel iface addr plen]) ∧
    (fs.wlutilExecutable = true →
      setIPv6NdOffload fs iface onv =
        (fs.runProgram [wl_util_path, "-a", iface, "ndoe", if onv != 0 then "1" else "0"],
         [ExtCall.run [wl_util_path, "-a", iface, "ndoe", if onv != 0 then "1" else "0"]])) ∧
    (fs.wlutilExecutable = false → setIPv6NdOffload fs iface onv = (0, [])) ∧
    (isIfaceName iface = false →
      (setEnableIPv6 fs iface onv).writes = [] ∧
      (setAcceptIPv6Ra fs iface onv).writes = [] ∧
      (setAcceptIPv6Dad fs iface onv).writes = [] ∧
      (setIPv6DadTransmits fs iface value).writes = [] ∧
      (setIPv6PrivacyExtensions fs iface onv).writes = [] ∧
      (setMtu fs iface mtu).writes = []) := by
  refine ⟨rfl, rfl, ?_, ?_, ?_⟩
  · intro h
    simp [setIPv6NdOffload, h]
  · intro h
    simp [setIPv6NdOffload, h]
  · intro h
    simp [setEnableIPv6, setAcceptIPv6Ra, setAcceptIPv6Dad, setIPv6DadTransmits,
      setIPv6PrivacyExtensions, setMtu, h]

/-- C2 witness: with the helper present, setIPv6NdOffload runs it with the
invalid name "../x" in its argument list. -/
theorem capability_ops_validation_witness :
    setIPv6NdOffload fsAllOk "../x" 1 =
      (7, [ExtCall.run ["/vendor/xbin/wlutil", "-a", "../x", "ndoe", "1"]]) := by
  rw [(capability_ops_validation fsAllOk "../x" "2001:db8::1" 64 1 "v" "m").2.2.1 rfl]
  decide

/-- C7 counterexample: with family "bogus" and category "..", the accessors
return -EAFNOSUPPORT (-97), not the invalid-argument code -EINVAL (-22),
although ".." fails path-safety validation; the family check takes
precedence. -/
theorem getParameter_family_precedence_cex :
    (getParameter fsAllOk "bogus" ".." "eth0" "mtu").1 = -97 ∧
    (setParameter fsAllOk "bogus" ".." "eth0" "mtu" "1").1 = -97 ∧
    isNormalPathComponent ".." = false ∧ ((-97 : Int) = -22 → False) := by
  decide

/-- C7 amended: a family outside the fixed set always yields -EAFNOSUPPORT
with no I/O; when the family is valid, a category or parameter failing
path-safety, or an interface failing the interface-name check, yields
-EINVAL with no I/O. -/
theorem parameterAccessors_validation (fs : Fs)
    (family which iface param value : String) :
    (isAddressFamilyPathComponent family = false →
      getParameter fs family which iface param = (-97, none, []) ∧
      setParameter fs family which iface param value = (-97, [])) ∧
    (isAddressFamilyPathComponent family = true →
      (isNormalPathComponent which = false ∨ isInterfaceName iface = false ∨
        isNormalPathComponent param = false) →
      getParameter fs family which iface param = (-22, none, []) ∧
      setParameter fs family which iface param value = (-22, [])) := by
  constructor
  · intro h
    simp [getParameter, setParameter, getParameterPathname, h, errnoCode]
  · intro h1 h2
    have h3 : (!(isNormalPathComponent which) || !(isInterfaceName iface) ||
        !(isNormalPathComponent param)) = true := by
      rcases h2 with h | h | h <;> simp [h]
    simp [getParameter, setParameter, getParameterPathname, h1, h3, errnoCode]

/-- C7 witness: family "ipv5" yields -97; a slash in the interface name with
a valid family yields -22; neither touches the filesystem. -/
theorem parameterAccessors_validation_witness :
    getParameter fsAllOk "ipv5" "conf" "eth0" "mtu" = (-97, none, []) ∧
    getParameter fsAllOk "ipv6" "conf" "bad/name" "mtu" = (-22, none, []) :=
  ⟨((parameterAccessors_validation fsAllOk "ipv5" "conf" "eth0" "mtu" "1").1
      (by decide)).1,
   ((parameterAccessors_validation fsAllOk "ipv6" "conf" "bad/name" "mtu" "1").2
      (by decide) (by decide)).1⟩

theorem applyEntries_nil (fn : String → String → List α) (d : String)
    (ents : List Dirent)
    (h : ∀ e ∈ ents, (e.isDir && isInterfaceName e.name) = false) :
    applyEntries fn d ents = [] := by
  induction ents with
  | nil => rfl
  | cons e rest ih =>
      simp [applyEntries, h e (List.mem_cons_self e rest),
        ih (fun x hx => h x (List.mem_cons_of_mem e hx))]

theorem forEachInterface_noIf (fs : Fs)
    (hNo : ∀ d ents, fs.listing d = some ents →
      ∀ e ∈ ents, (e.isDir && isInterfaceName e.name) = false)
    (d : String) (fn : String → String → List α) :
    forEachInterface fs d fn = fn d "default" := by
  unfold forEachInterface
  cases h : fs.listing d with
  | none => simp
  | some ents => simp [applyEntries_nil fn d ents (hNo d ents h)]

theorem setOn_noIf (fs : Fs)
    (hNo : ∀ d ents, fs.listing d = some ents →
      ∀ e ∈ ents, (e.isDir && isInterfaceName e.name) = false)
    (hW : ∀ p, fs.writeOk p = true) (d b v : String) :
    setOnAllInterfaces fs d b v = [⟨d, "default", b, v, true⟩] := by
  unfold setOnAllInterfaces
  rw [forEachInterface_noIf fs hNo]
  simp [writeValueToPath, hW]

/-- C5: on a filesystem with no real interfaces and fully writable nodes,
initializeAll writes exactly accept_ra=2, the RIO prefix bounds 48 and 64,
accept_ra_rt_table set to the negative offset, optimistic_dad=1,
use_optimistic=1, base_reachable_time_ms=15000 in both neighbor trees and
use_oif_addrs_only=1, all under the "default" subdirectory only. -/
theorem initializeAll_default_writes (fs : Fs)
    (hNo : ∀ d ents, fs.listing d = some ents →
      ∀ e ∈ ents, (e.isDir && isInterfaceName e.name) = false)
    (hW : ∀ p, fs.writeOk p = true) :
    initializeAll fs =
      [⟨ipv6_proc_path, "default", "accept_ra", "2", true⟩,
       ⟨ipv6_proc_path, "default", "accept_ra_rt_info_min_plen", "48", true⟩,
       ⟨ipv6_proc_path, "default", "accept_ra_rt_info_max_plen", "64", true⟩,
       ⟨ipv6_proc_path, "default", "accept_ra_rt_table",
         toString (-ROUTE_TABLE_OFFSET_FROM_INDEX), true⟩,
       ⟨ipv6_proc_path, "default", "optimistic_dad", "1", true⟩,
       ⟨ipv6_proc_path, "default", "use_optimistic", "1", true⟩,
       ⟨ipv4_neigh_conf_dir, "default", "base_reachable_time_ms", "15000", true⟩,
       ⟨ipv6_neigh_conf_dir, "default", "base_reachable_time_ms", "15000", true⟩,
       ⟨ipv6_proc_path, "default", "use_oif_addrs_only", "1", true⟩] ∧
    -ROUTE_TABLE_OFFSET_FROM_INDEX < 0 ∧
    ∀ w ∈ initializeAll fs, w.subdirname = "default" := by
  have heq : initializeAll fs =
      [⟨ipv6_proc_path, "default", "accept_ra", "2", true⟩,
       ⟨ipv6_proc_path, "default", "accept_ra_rt_info_min_plen", "48", true⟩,
       ⟨ipv6_proc_path, "default", "accept_ra_rt_info_max_plen", "64", true⟩,
       ⟨ipv6_proc_path, "default", "accept_ra_rt_table",
         toString (-ROUTE_TABLE_OFFSET_FROM_INDEX), true⟩,
       ⟨ipv6_proc_path, "default", "optimistic_dad", "1", true⟩,
       ⟨ipv6_proc_path, "default", "use_optimistic", "1", true⟩,
       ⟨ipv4_neigh_conf_dir, "default", "base_reachable_time_ms", "15000", true⟩,
       ⟨ipv6_neigh_conf_dir, "default", "base_reachable_time_ms", "15000", true⟩,
       ⟨ipv6_proc_path, "default", "use_oif_addrs_only", "1", true⟩] := by
    unfold initializeAll setAcceptRA setAcceptRARouteTable setBaseReachableTimeMs
      setIPv6OptimisticMode setIPv6UseOutgoingInterfaceAddrsOnly setAcceptIPv6Rio
    rw [forEachInterface_noIf fs hNo, rioWritesForIface_eq]
    simp only [setOn_noIf fs hNo hW, hW]
    simp only [if_pos]
    simp [kRouteInfoMinPrefixLen, kRouteInfoMaxPrefixLen]
    decide
  refine ⟨heq, by decide, ?_⟩
  rw [heq]
  decide

/-- C5 witness: the exact write list on the concrete empty filesystem. -/
theorem initializeAll_default_writes_witness :
    initializeAll fsAllOk =
      [⟨ipv6_proc_path, "default", "accept_ra", "2", true⟩,
       ⟨ipv6_proc_path, "default", "accept_ra_rt_info_min_plen", "48", true⟩,
       ⟨ipv6_proc_path, "default", "accept_ra_rt_info_max_plen", "64", true⟩,
       ⟨ipv6_proc_path, "default", "accept_ra_rt_table",
         toString (-ROUTE_TABLE_OFFSET_FROM_INDEX), true⟩,
       ⟨ipv6_proc_path, "default", "optimistic_dad", "1", true⟩,
       ⟨ipv6_proc_path, "default", "use_optimistic", "1", true⟩,
       ⟨ipv4_neigh_conf_dir, "default", "base_reachable_time_ms", "15000", true⟩,
       ⟨ipv6_neigh_conf_dir, "default", "base_reachable_time_ms", "15000", true⟩,
       ⟨ipv6_proc_path, "default", "use_oif_addrs_only", "1", true⟩] :=
  (initializeAll_default_writes fsAllOk
    (by intro d ents h e he
        injection h with h2
        subst h2
        cases he)
    (fun p => rfl)).1
